import Mathlib

/-!
Verification development for the `labelview` repository (a consuming client
for the atproto label subscription stream).

The definitions below are a shallow embedding of the Rust sources:
  * `src/db.rs`   — label record model, expiry predicate, sqlite access paths
  * `src/main.rs` — event stream header decoding, the frame loop, and the
                    `LabelStore` session state with `process_labels`

Machine integers (`i64`) are modelled as `Int` (the decoder enforces the
`i64::MAX` bound explicitly where the source checks it).  Fallible Rust code
returning `eyre::Result` is modelled with `Except String`.  The sqlite
database is modelled as explicit state: the `label_records` table is a list
of rows whose key `(src, target_uri, val, seq)` is unique (db.rs documents
this key: `insert` reports a key conflict for a duplicate, and `update` /
`fetch_by_key` address a row by exactly this tuple); the `suspicious_records`
table is an append-only list of rows.  External library calls (ciborium CBOR
decoding, chrono datetime parsing) are modelled at their interface, as noted
at each definition.
-/

/-- The identity of a label assertion, from db.rs `LabelKey`:
`src` did, `target_uri`, and label value `val`. -/
structure LabelKey where
  src : String
  target_uri : String
  val : String
deriving DecidableEq, Repr

/-- db.rs `LabelDbKey`: a `LabelKey` together with the stream `seq`. -/
structure LabelDbKey where
  key : LabelKey
  seq : Int
deriving DecidableEq, Repr

/-- db.rs `LabelRecord`.  `create_timestamp` is an `Rc<str>` in the source,
modelled as a plain `String`. -/
structure LabelRecord where
  dbkey : LabelDbKey
  create_timestamp : String
  expiry_timestamp : Option String
  neg : Bool
  target_cid : Option String
deriving DecidableEq, Repr

/-- A row of the `label_records` table: the record fields plus the
bookkeeping columns written by db.rs `insert` / `update`.
(`impId` models the `import_id` column.) -/
structure DbRow where
  record : LabelRecord
  impId : Int
  lastSeen : Int
deriving DecidableEq, Repr

/-- A row of the `suspicious_records` table, as written by db.rs
`LabelRecord::suspicious` and `LabelDbKey::suspicious_from_old_record`. -/
structure SusRow where
  impId : Int
  susTime : Int
  problem : String
  record : LabelRecord
  originalImportId : Option Int
  originalLastSeen : Option Int
deriving DecidableEq, Repr

/-- The sqlite database state touched by `process_labels`. -/
structure Db where
  label_records : List DbRow
  suspicious_records : List SusRow
deriving DecidableEq, Repr

/-- Association list lookup (first match), used to model `HashMap::get`
deterministically. -/
def alookup {α β : Type} [DecidableEq α] (l : List (α × β)) (k : α) : Option β :=
  match l with
  | [] => none
  | p :: rest => if p.1 = k then some p.2 else alookup rest k

/-- Replace the value at the first occurrence of key `k` (models writing
through an occupied `HashMap` entry). -/
def aset {α β : Type} [DecidableEq α] (l : List (α × β)) (k : α) (v : β) : List (α × β) :=
  match l with
  | [] => []
  | p :: rest => if p.1 = k then (k, v) :: rest else p :: aset rest k v

/-- Insert-or-overwrite (models `HashMap::insert`). -/
def aupsert {α β : Type} [DecidableEq α] (l : List (α × β)) (k : α) (v : β) : List (α × β) :=
  if (alookup l k).isSome then aset l k v else l ++ [(k, v)]

/-- Remove the entry with key `k`, if present (models `HashMap::remove`
ignoring the returned value). -/
def aerase {α β : Type} [DecidableEq α] (l : List (α × β)) (k : α) : List (α × β) :=
  match l with
  | [] => []
  | p :: rest => if p.1 = k then rest else p :: aerase rest k

/-- Remove the entry with key `k`, returning the removed value and the
remaining list (models `HashMap::remove`). -/
def aremoveTake {α β : Type} [DecidableEq α] (l : List (α × β)) (k : α) :
    Option β × List (α × β) :=
  match l with
  | [] => (none, [])
  | p :: rest =>
    if p.1 = k then (some p.2, rest)
    else
      let r := aremoveTake rest k
      (r.1, p :: r.2)

/-- Extend an association map with a list of pairs, overwriting on key
collision (models `HashMap::extend`). -/
def aextend {α β : Type} [DecidableEq α] (l new : List (α × β)) : List (α × β) :=
  new.foldl (fun acc p => aupsert acc p.1 p.2) l

/-- Models chrono `DateTime<Utc>` values.  The session only ever compares
datetimes and threads them through as opaque values, so any linearly ordered
carrier is adequate; we use `Int`. -/
abbrev DateTimeV : Type := Int

/-- Helper for `parse_datetime`: value of a decimal digit character. -/
def digitVal (c : Char) : Option Nat :=
  if c.isDigit then some (c.toNat - 48) else none

/-- Helper for `parse_datetime`: parse a fixed run of decimal digits. -/
def parseDigits (cs : List Char) : Option Nat :=
  cs.foldlM (fun acc c => (digitVal c).map (fun d => acc * 10 + d)) 0

/-- Models db.rs `parse_datetime` (chrono `parse_from_rfc3339`, an external
library).  The model accepts the canonical UTC form
`YYYY-MM-DDTHH:MM:SSZ` and maps it to the digit string read as a number,
which is an order-preserving encoding of the instant (canonical RFC3339
strings compare chronologically digit by digit); all other strings are
unparseable.  This is adequate because the program only compares the
resulting datetimes. -/
def parse_datetime (s : String) : Option DateTimeV :=
  match s.toList with
  | [y1, y2, y3, y4, '-', m1, m2, '-', d1, d2, 'T',
     h1, h2, ':', n1, n2, ':', s1, s2, 'Z'] =>
    match parseDigits [y1, y2, y3, y4], parseDigits [m1, m2], parseDigits [d1, d2],
        parseDigits [h1, h2], parseDigits [n1, n2], parseDigits [s1, s2] with
    | some y, some mo, some d, some h, some mi, some se =>
      if 1 ≤ mo ∧ mo ≤ 12 ∧ 1 ≤ d ∧ d ≤ 31 ∧ h ≤ 23 ∧ mi ≤ 59 ∧ se ≤ 59 then
        some (((((((y : Int) * 100 + mo) * 100 + d) * 100 + h) * 100 + mi) * 100 + se))
      else none
    | _, _, _, _, _, _ => none
  | _ => none

/-- db.rs `LabelRecord::is_expired`: returns `false` when there is no
`expiry_timestamp` or it does not parse; otherwise returns the source
expression `exp > *now`. -/
def is_expired (r : LabelRecord) (now : DateTimeV) : Bool :=
  match r.expiry_timestamp with
  | none => false
  | some exp =>
    match parse_datetime exp with
    | none => false
    | some t => decide (t > now)

/-- The payload of one entry of a decoded `#labels` body, after ciborium
CBOR decoding into atrium `Label` data (main.rs line 225 feeds the raw body
to `LabelRecord::from_subscription_record`, which decodes this shape). -/
structure SubLabel where
  ver : Option Int
  src : String
  uri : String
  cid : Option String
  val : String
  neg : Option Bool
  cts : String
  exp : Option String
deriving DecidableEq, Repr

/-- A decoded `#labels` body (atrium `subscribe_labels::Labels`). -/
structure SubscriptionLabels where
  seq : Int
  labels : List SubLabel
deriving DecidableEq, Repr

/-- `i64::MAX`. -/
def i64Max : Int := 9223372036854775807

/-- The per-label conversion inside db.rs `from_subscription_record`:
reject `ver != Some(1)`, default `neg` to `false`, copy the fields. -/
def label_from_data (seq : Int) (label : SubLabel) : Except String LabelRecord :=
  if label.ver ≠ some 1 then
    .error "unsupported or missing label record version"
  else
    .ok { dbkey := { key := { src := label.src, target_uri := label.uri, val := label.val },
                     seq := seq },
          target_cid := label.cid,
          create_timestamp := label.cts,
          expiry_timestamp := label.exp,
          neg := label.neg.getD false }

/-- db.rs `LabelRecord::from_subscription_record`, starting from the decoded
CBOR body: reject `seq` outside the range `1 .. i64::MAX` (the source checks
`(1..i64::MAX).contains(&seq)`), then convert each label, failing on the
first bad one. -/
def from_subscription_record (body : SubscriptionLabels) : Except String (List LabelRecord) :=
  if ¬ (1 ≤ body.seq ∧ body.seq < i64Max) then
    .error "non-positive sequence number in label update"
  else
    body.labels.mapM (label_from_data body.seq)

/-- A decoded CBOR scalar, as needed to model the event stream header map
handed to serde by ciborium (main.rs `GetCmd::header_type`). -/
inductive CborVal where
  | int (i : Int)
  | text (s : String)
  | null
deriving DecidableEq, Repr

/-- The event stream header as a CBOR map (key/value list). -/
abbrev HeaderMap : Type := List (String × CborVal)

/-- The serde target of main.rs `header_type`: note that `t` is a plain
`String`, so it is a required field. -/
structure Header where
  op : Int
  t : String
  error : Option String
  message : Option String
deriving DecidableEq, Repr

/-- Field access for a required `i64` header field. -/
def getIntField (m : HeaderMap) (k : String) : Option Int :=
  match alookup m k with
  | some (.int i) => some i
  | _ => none

/-- Field access for a required text header field. -/
def getTextField (m : HeaderMap) (k : String) : Option String :=
  match alookup m k with
  | some (.text s) => some s
  | _ => none

/-- Field access for an `Option<String>` header field: absent or null is
`none`, text is `some`, anything else is a type error. -/
def getOptTextField (m : HeaderMap) (k : String) : Except String (Option String) :=
  match alookup m k with
  | none => .ok none
  | some .null => .ok none
  | some (.text s) => .ok (some s)
  | some (.int _) => .error "mistyped header field"

/-- Models the serde deserialization of the `Header` struct in main.rs
`header_type` from the header CBOR map: `op` and `t` are required
(deserialization fails when either is missing or mistyped), `error` and
`message` are optional. -/
def decode_header (m : HeaderMap) : Except String Header :=
  match getIntField m "op", getTextField m "t",
      getOptTextField m "error", getOptTextField m "message" with
  | some op, some t, .ok e, .ok msg => .ok { op := op, t := t, error := e, message := msg }
  | _, _, _, _ => .error "missing or mistyped header field"

/-- main.rs `GetCmd::header_type`: decode the header (any failure becomes a
decoding error), then treat any `op != 1` as a received error frame whose
error and message are taken from the header itself, and otherwise return the
message type `t`. -/
def header_type (m : HeaderMap) : Except String String :=
  match decode_header m with
  | .error e => .error ("error decoding event stream header: " ++ e)
  | .ok h =>
    if h.op ≠ 1 then
      .error ("received an error from event stream: " ++ h.error.getD "(no error type)"
        ++ ": " ++ h.message.getD "(no error message)")
    else
      .ok h.t

/-- Builds a header map with the given `op`, optional `t`, and optional
`error` / `message` entries. -/
def mkHeader (op : Int) (t : Option String) (e msg : Option String) : HeaderMap :=
  [("op", CborVal.int op)]
    ++ (match t with | none => [] | some s => [("t", CborVal.text s)])
    ++ (match e with | none => [] | some s => [("error", CborVal.text s)])
    ++ (match msg with | none => [] | some s => [("message", CborVal.text s)])

/-- main.rs `LabelStore`: the in-memory session state plus the database
connection.  `impId` models the `import_id` field. -/
structure LabelStore where
  db : Db
  impId : Int
  labeler_dids : List (String × Int)
  suspicious_new_records : Nat
  disappeared_negative_records : Nat
  last_seq : List (String × Int)
  disappeared_old_records : List (LabelKey × LabelRecord)
  latest_create_timestamp : Option String
deriving DecidableEq, Repr

/-- db.rs `seq_for_src`: `coalesce(max(seq), 0)` over the rows of
`label_records` with the given `src`. -/
def seq_for_src (db : Db) (src : String) : Int :=
  match ((db.label_records.filter
      (fun row => row.record.dbkey.key.src = src)).map
      (fun row => row.record.dbkey.seq)).max? with
  | none => 0
  | some m => m

/-- db.rs `load_known_range`: the rows with the given `src` whose `seq` lies
in the inclusive range (the model returns them in stored order; the SQL
query has no ORDER BY, so any fixed order is a faithful determinization). -/
def load_known_range (db : Db) (src : String) (lo hi : Int) : List LabelRecord :=
  (db.label_records.filter
    (fun row => row.record.dbkey.key.src = src
      ∧ lo ≤ row.record.dbkey.seq ∧ row.record.dbkey.seq ≤ hi)).map
    (fun row => row.record)

/-- db.rs `LabelRecord::insert`: append a fresh row, or report a key
conflict (`false`) when a row with the same `(src, target_uri, val, seq)`
key already exists. -/
def insert_row (db : Db) (l : LabelRecord) (impId now : Int) : Bool × Db :=
  if db.label_records.any (fun row => row.record.dbkey = l.dbkey) then
    (false, db)
  else
    (true, { db with label_records := db.label_records ++ [⟨l, impId, now⟩] })

/-- db.rs `LabelRecord::update`: overwrite the row with the same key with
the new record fields, bumping `import_id` and `last_seen_timestamp`;
returns the number of rows matched. -/
def update_row (db : Db) (l : LabelRecord) (impId now : Int) : Nat × Db :=
  let matched := (db.label_records.filter (fun row => row.record.dbkey = l.dbkey)).length
  let rows := db.label_records.map fun row =>
    if row.record.dbkey = l.dbkey then (⟨l, impId, now⟩ : DbRow) else row
  (matched, { db with label_records := rows })

/-- db.rs `LabelRecord::suspicious`: append a suspicious-record row copied
from the new record (no original import data). -/
def suspicious_insert (db : Db) (l : LabelRecord) (problem : String) (impId now : Int) : Db :=
  let row : SusRow := { impId := impId, susTime := now, problem := problem, record := l,
                        originalImportId := none, originalLastSeen := none }
  { db with suspicious_records := db.suspicious_records ++ [row] }

/-- db.rs `LabelDbKey::suspicious_from_old_record`: copy the `label_records`
row with this key (if any) into `suspicious_records`, keeping its original
id of the import and its last seen timestamp; fails if the key matches more
than one row. -/
def suspicious_from_old_record (db : Db) (k : LabelDbKey) (problem : String)
    (impId now : Int) : Except String Db :=
  match db.label_records.filter (fun row => row.record.dbkey = k) with
  | [] => .ok db
  | [row] =>
    let sus : SusRow := { impId := impId, susTime := now, problem := problem,
                          record := row.record, originalImportId := some row.impId,
                          originalLastSeen := some row.lastSeen }
    .ok { db with suspicious_records := db.suspicious_records ++ [sus] }
  | _ :: _ :: _ => .error "found more than 1 label record by a single key :("

/-- Lexicographic strictly-less test on character lists, by code point. -/
def charsLt (a b : List Char) : Bool :=
  match a, b with
  | [], [] => false
  | [], _ :: _ => true
  | _ :: _, [] => false
  | x :: xs, y :: ys =>
    if x.toNat < y.toNat then true
    else if y.toNat < x.toNat then false
    else charsLt xs ys

/-- Rust iterator `max` over strings (`Ord for str` is lexicographic by
byte, which agrees with code point order on the data involved). -/
def strMax (a b : String) : String :=
  if charsLt a.toList b.toList then b else a

/-- The `latest_create_timestamp` update at the top of `process_labels`
(main.rs lines 315 to 320): the maximum of the create timestamps of the
batch chained with the previous value. -/
def latest_cts (old : Option String) (labels : List LabelRecord) : Option String :=
  (labels.map (fun l => l.create_timestamp) ++ old.toList).foldl
    (fun acc c =>
      match acc with
      | none => some c
      | some a => some (strMax a c))
    none

/-- itertools `unique()` over the batch source dids: keep the first
occurrence of each. -/
def dedupFirst (l : List String) : List String :=
  l.foldl (fun acc s => if acc.contains s then acc else acc ++ [s]) []

/-- Accumulator of the per-src loop of `process_labels`
(main.rs lines 344 to 376). -/
structure SrcAcc where
  dids : List (String × Int)
  lastSeq : List (String × Int)
  indexedOld : List (LabelDbKey × LabelRecord)
deriving DecidableEq, Repr

/-- One iteration of the per-src loop of `process_labels`: learn the src did
with its prior database seq if it is new, and, when retreading, load the
known old records from `last_seq + 1` (or `0` for an unseen src) up to and
including the batch seq into `indexedOld`, leaving the batch seq in
`last_seq`. -/
def src_step (db : Db) (batchSeq : Int) (retreading : Bool) (acc : SrcAcc) (src : String) :
    SrcAcc :=
  let dids :=
    if (alookup acc.dids src).isNone then acc.dids ++ [(src, seq_for_src db src)]
    else acc.dids
  if retreading then
    match alookup acc.lastSeq src with
    | some prior =>
      { dids := dids,
        lastSeq := aset acc.lastSeq src batchSeq,
        indexedOld := aextend acc.indexedOld
          ((load_known_range db src (prior + 1) batchSeq).map (fun r => (r.dbkey, r))) }
    | none =>
      { dids := dids,
        lastSeq := acc.lastSeq ++ [(src, batchSeq)],
        indexedOld := aextend acc.indexedOld
          ((load_known_range db src 0 batchSeq).map (fun r => (r.dbkey, r))) }
  else
    { acc with dids := dids }

/-- Accumulator of the per-label loop of `process_labels`
(main.rs lines 413 to 444). -/
structure LabelAcc where
  indexedOld : List (LabelDbKey × LabelRecord)
  susOld : List (LabelDbKey × String)
  susNew : List (LabelRecord × String)
  upds : List LabelRecord
  inss : List LabelRecord
  susNewCount : Nat
deriving DecidableEq, Repr

/-- One iteration of the per-label loop of `process_labels`, covering the
four commented cases of the source: seq beyond all old records (insert);
exact match with an old record (update); mismatch with an old record
(suspicious replaced/replacing, update); no old record (suspicious new,
insert).  The source `unwrap`s the labeler did lookup, which the per-src
loop has always populated; the model defaults to `0` on that unreachable
branch. -/
def label_step (dids : List (String × Int)) (acc : LabelAcc) (l : LabelRecord) : LabelAcc :=
  if (alookup dids l.dbkey.key.src).getD 0 < l.dbkey.seq then
    { acc with inss := acc.inss ++ [l] }
  else
    match aremoveTake acc.indexedOld l.dbkey with
    | (some old, rest) =>
      if old = l then
        { acc with indexedOld := rest, upds := acc.upds ++ [l] }
      else
        { acc with indexedOld := rest,
                   susOld := acc.susOld ++ [(old.dbkey, "replaced")],
                   susNew := acc.susNew ++ [(l, "replacing")],
                   upds := acc.upds ++ [l],
                   susNewCount := acc.susNewCount + 1 }
    | (none, rest) =>
      { acc with indexedOld := rest,
                 susNew := acc.susNew ++ [(l, "new")],
                 inss := acc.inss ++ [l] }

/-- Accumulator of the disappeared-records loop of `process_labels`
(main.rs lines 446 to 465). -/
structure DisAcc where
  disappearedOld : List (LabelKey × LabelRecord)
  susOld : List (LabelDbKey × String)
  negCount : Nat
deriving DecidableEq, Repr

/-- One iteration of the disappeared-records loop: a leftover negative old
record is dropped silently when the positive record it negated (found in
`disappeared_old_records`) is expired, and is otherwise logged as
a disappeared-while-effective suspicious entry; leftover positive records
all go into `disappeared_old_records`. -/
def disappeared_step (now : DateTimeV) (acc : DisAcc) (d : LabelRecord) : DisAcc :=
  if d.neg then
    match alookup acc.disappearedOld d.dbkey.key with
    | some positive =>
      if is_expired positive now then
        { acc with disappearedOld := aerase acc.disappearedOld d.dbkey.key }
      else
        { acc with susOld := acc.susOld ++ [(d.dbkey, "disappeared-while-effective")],
                   negCount := acc.negCount + 1 }
    | none =>
      { acc with susOld := acc.susOld ++ [(d.dbkey, "disappeared-while-effective")],
                 negCount := acc.negCount + 1 }
  else
    { acc with disappearedOld := aupsert acc.disappearedOld d.dbkey.key d }

/-- The write transaction at the end of `process_labels`
(main.rs lines 467 to 481): copy suspicious old records, write suspicious
new records, apply the in-place updates (failing if a key matched more than
one row), then apply the inserts (a key conflict makes `insert` report
`false`, which the caller ignores). -/
def tx_phase (db : Db) (impId : Int) (now : DateTimeV)
    (susOld : List (LabelDbKey × String)) (susNew : List (LabelRecord × String))
    (upds inss : List LabelRecord) : Except String Db := do
  let db1 ← susOld.foldlM
    (fun d p => suspicious_from_old_record d p.1 p.2 impId now) db
  let db2 := susNew.foldl (fun d p => suspicious_insert d p.1 p.2 impId now) db1
  let db3 ← upds.foldlM
    (fun d l =>
      let res := update_row d l impId now
      if res.1 > 1 then
        Except.error "more than 1 label record updated by a single key :("
      else
        Except.ok res.2)
    db2
  let db4 := inss.foldl (fun d l => (insert_row d l impId now).2) db3
  return db4

/-- main.rs `LabelStore::process_labels`.  An empty batch returns
immediately.  Otherwise the batch seq is the seq of the first record, the
latest create timestamp is folded in, the batch source dids are collected in
first-appearance order, and the three loops and the write transaction run
as modelled above.  The `Except.error` branch models the Rust `Err` return
(only reachable from the database paths). -/
def process_labels (s : LabelStore) (labels : List LabelRecord) (now : DateTimeV)
    (retreading : Bool) : Except String LabelStore :=
  match labels.head? with
  | none => .ok s
  | some first =>
    let batchSeq := first.dbkey.seq
    let latest := latest_cts s.latest_create_timestamp labels
    let srcs := dedupFirst (labels.map (fun l => l.dbkey.key.src))
    let sacc := srcs.foldl (src_step s.db batchSeq retreading)
      { dids := s.labeler_dids, lastSeq := s.last_seq, indexedOld := [] }
    let lacc := labels.foldl (label_step sacc.dids)
      { indexedOld := sacc.indexedOld, susOld := [], susNew := [], upds := [], inss := [],
        susNewCount := s.suspicious_new_records }
    let dacc := (lacc.indexedOld.map (fun p => p.2)).foldl (disappeared_step now)
      { disappearedOld := s.disappeared_old_records, susOld := lacc.susOld,
        negCount := s.disappeared_negative_records }
    match tx_phase s.db s.impId now dacc.susOld lacc.susNew lacc.upds lacc.inss with
    | .error e => .error e
    | .ok db =>
      .ok { db := db,
            impId := s.impId,
            labeler_dids := sacc.dids,
            suspicious_new_records := lacc.susNewCount,
            disappeared_negative_records := dacc.negCount,
            last_seq := sacc.lastSeq,
            disappeared_old_records := dacc.disappearedOld,
            latest_create_timestamp := latest }

/-- The body of a binary event stream frame after the header, as classified
by the ciborium decodes in the main loop (main.rs lines 224 to 236): a
`#labels` body, an `#info` body, or something that decodes as neither. -/
inductive FrameBody where
  | labelsBody (b : SubscriptionLabels)
  | infoBody (name : String) (message : Option String)
  | otherBody
deriving DecidableEq, Repr

/-- A websocket message as dispatched by the main loop: a text frame, a
binary frame (already split into header map, body and count of trailing
bytes), or any other frame kind (ping, pong, close ...), which the source
matches with a silent wildcard arm. -/
inductive WsMessage where
  | textMsg (s : String)
  | binaryMsg (header : HeaderMap) (body : FrameBody) (trailing : Nat)
  | otherMsg
deriving DecidableEq, Repr

/-- Models the ciborium decode of a `#labels` frame body
(the decode step inside db.rs `from_subscription_record`). -/
def decode_labels_body : FrameBody → Except String SubscriptionLabels
  | .labelsBody b => .ok b
  | _ => .error "error decoding label record event stream body"

/-- Models the ciborium decode of an `#info` frame body
(main.rs lines 228 to 230). -/
def decode_info_body : FrameBody → Except String (String × Option String)
  | .infoBody n m => .ok (n, m)
  | _ => .error "error parsing info message"

/-- One iteration of the message dispatch in main.rs `GetCmd::go`
(lines 214 to 245): text frames are printed and the loop continues; binary
frames have their header decoded, then `#labels` bodies are decoded and
processed, `#info` bodies are decoded and printed, and any other type fails
with an unknown-message-type error; trailing bytes after a successful decode
are only printed; every other frame kind falls through silently.  An
`Except.error` result aborts the `go` loop (the `?` operator). -/
def handle_message (s : LabelStore) (msg : WsMessage) (now : DateTimeV)
    (retreading : Bool) : Except String LabelStore :=
  match msg with
  | .textMsg _ => .ok s
  | .otherMsg => .ok s
  | .binaryMsg header body _trailing =>
    match header_type header with
    | .error e => .error e
    | .ok ty =>
      if ty = "#labels" then
        match decode_labels_body body with
        | .error e => .error e
        | .ok b =>
          match from_subscription_record b with
          | .error e => .error e
          | .ok labels => process_labels s labels now retreading
      else if ty = "#info" then
        match decode_info_body body with
        | .error e => .error e
        | .ok _ => .ok s
      else
        .error ("unknown event stream message type: " ++ ty)

/-- Models `Duration::try_from_secs_f64` (Rust std): fails exactly on
negative input (and on NaN or overflow, which the rational model cannot
express and the claims do not involve); succeeds on `0` with the zero
duration.  The `f64` command line value is represented exactly as a
rational. -/
def try_from_secs_f64 (secs : Rat) : Option Rat :=
  if secs < 0 then none else some secs

/-- main.rs line 195: the optional idle sleep duration derived from the
`stream_timeout` argument. -/
def sleep_duration (stream_timeout : Rat) : Option Rat :=
  try_from_secs_f64 stream_timeout

/-- main.rs `conditional_sleep` (lines 251 to 256): completes with
`some ()` after the timer when one is provided, and with `none`
immediately otherwise (the select arm pattern `Some(())` then never
matches, so the idle branch is disabled). -/
def conditional_sleep (t : Option Rat) : Option Unit :=
  match t with
  | some _ => some ()
  | none => none

/-- Whether the idle-timeout select arm can ever fire for a given
`stream_timeout`: the `Some(())` pattern of the select arm matches exactly
when a sleep duration was produced. -/
def idle_arm_fires (stream_timeout : Rat) : Bool :=
  (conditional_sleep (sleep_duration stream_timeout)).isSome

/-- A fresh session store over an empty database (the state built by
`LabelStore::new` with import id 1, before any frame arrives). -/
def ex0 : LabelStore :=
  { db := { label_records := [], suspicious_records := [] },
    impId := 1,
    labeler_dids := [],
    suspicious_new_records := 0,
    disappeared_negative_records := 0,
    last_seq := [],
    disappeared_old_records := [],
    latest_create_timestamp := none }

/-- Example label key used by the concrete scenarios. -/
def keyA : LabelKey :=
  { src := "did:plc:labeler", target_uri := "did:plc:target", val := "spam" }

/-- Example record at seq 5. -/
def rec5 : LabelRecord :=
  { dbkey := { key := keyA, seq := 5 }, create_timestamp := "2024-01-01T00:00:00Z",
    expiry_timestamp := none, neg := false, target_cid := none }

/-- Example record at seq 4 (same key triple, later arrival). -/
def rec4 : LabelRecord :=
  { dbkey := { key := keyA, seq := 4 }, create_timestamp := "2024-01-02T00:00:00Z",
    expiry_timestamp := none, neg := false, target_cid := none }

/-- Example decoded label entry with `ver = 1` and `neg` absent. -/
def subGood : SubLabel :=
  { ver := some 1, src := "did:plc:labeler", uri := "did:plc:target", cid := none,
    val := "spam", neg := none, cts := "2024-01-01T00:00:00Z", exp := none }

/-- Example decoded `#labels` body with seq 1. -/
def bodyGood : SubscriptionLabels := { seq := 1, labels := [subGood] }

/-- The record produced from `bodyGood`. -/
def recGood : LabelRecord :=
  { dbkey := { key := keyA, seq := 1 }, create_timestamp := "2024-01-01T00:00:00Z",
    expiry_timestamp := none, neg := false, target_cid := none }

/-- Decidable equality on `Except`, for evaluating concrete runs. -/
instance exceptDecEq {ε α : Type} [DecidableEq ε] [DecidableEq α] :
    DecidableEq (Except ε α) := fun a b =>
  match a, b with
  | .error e, .error f =>
    if h : e = f then isTrue (by rw [h]) else isFalse (fun c => h (Except.error.inj c))
  | .ok x, .ok y =>
    if h : x = y then isTrue (by rw [h]) else isFalse (fun c => h (Except.ok.inj c))
  | .error _, .ok _ => isFalse (fun c => Except.noConfusion c)
  | .ok _, .error _ => isFalse (fun c => Except.noConfusion c)

/-- Reduction of `bind` over `Except.ok`. -/
theorem except_bind_ok {ε α β : Type} (a : α) (g : α → Except ε β) :
    (Except.ok a >>= g) = g a := rfl

/-- Reduction of `bind` over `Except.error`. -/
theorem except_bind_err {ε α β : Type} (e : ε) (g : α → Except ε β) :
    ((Except.error e : Except ε α) >>= g) = Except.error e := rfl

/-- A successful monadic map over `Except` maps every element successfully,
pointwise. -/
theorem mapM_except_ok {α β : Type} (f : α → Except String β) :
    ∀ (l : List α) (r : List β), l.mapM f = Except.ok r →
      r.length = l.length ∧
      ∀ (i : Nat) (h1 : i < l.length) (h2 : i < r.length),
        f (l.get ⟨i, h1⟩) = Except.ok (r.get ⟨i, h2⟩) := by
  intro l
  induction l with
  | nil =>
    intro r h
    simp only [List.mapM_nil] at h
    cases h
    exact ⟨rfl, by intro i h1 _; exact absurd h1 (Nat.not_lt_zero i)⟩
  | cons a as ih =>
    intro r h
    rw [List.mapM_cons] at h
    cases hfa : f a with
    | error e => rw [hfa, except_bind_err] at h; cases h
    | ok y =>
      rw [hfa, except_bind_ok] at h
      cases hrest : as.mapM f with
      | error e => rw [hrest, except_bind_err] at h; cases h
      | ok ys =>
        rw [hrest, except_bind_ok] at h
        cases h
        obtain ⟨hl, hp⟩ := ih ys hrest
        refine ⟨by simp [hl], ?_⟩
        intro i h1 h2
        cases i with
        | zero => simpa using hfa
        | succ n =>
          simp only [List.get]
          exact hp n (Nat.lt_of_succ_lt_succ h1) (Nat.lt_of_succ_lt_succ h2)

/-- C8: decoding a `#labels` body fails — returning no records — whenever
the body seq lies outside the open interval `(0, i64::MAX)` or any label in
the batch has a version other than `Some(1)` (a missing version included);
on a successful decode, every label whose `neg` field is absent yields a
record with `neg = false`.  The decoder is a pure function, so a failed
decode has no effect on the store or the session state: `process_labels`
only runs on the `Ok` branch (main.rs lines 225 to 226). -/
theorem C8_decode_reject_and_neg_default (body : SubscriptionLabels) :
    ((body.seq ≤ 0 ∨ i64Max ≤ body.seq ∨ ∃ l ∈ body.labels, l.ver ≠ some 1) →
      (from_subscription_record body).isOk = false)
    ∧ (∀ recs, from_subscription_record body = Except.ok recs →
        recs.length = body.labels.length ∧
        ∀ (i : Nat) (h1 : i < body.labels.length) (h2 : i < recs.length),
          (body.labels.get ⟨i, h1⟩).neg = none → (recs.get ⟨i, h2⟩).neg = false) := by
  constructor
  · intro hbad
    cases hres : from_subscription_record body with
    | error e => rfl
    | ok recs =>
      exfalso
      have hres2 := hres
      unfold from_subscription_record at hres2
      split at hres2
      · cases hres2
      · rename_i hguard
        obtain ⟨hge, hlt⟩ := not_not.mp hguard
        rcases hbad with h0 | h0 | ⟨l, hmem, hver⟩
        · omega
        · omega
        · obtain ⟨i, hget⟩ := List.mem_iff_get.mp hmem
          obtain ⟨hlen, hp⟩ := mapM_except_ok _ _ _ hres2
          have hpt := hp i.1 i.2 (by omega)
          have hgeteq : body.labels.get ⟨i.1, i.2⟩ = l := by
            rw [← hget]
          rw [hgeteq] at hpt
          unfold label_from_data at hpt
          rw [if_pos hver] at hpt
          cases hpt
  · intro recs hres
    have hres2 := hres
    unfold from_subscription_record at hres2
    split at hres2
    · cases hres2
    · obtain ⟨hlen, hp⟩ := mapM_except_ok _ _ _ hres2
      refine ⟨hlen, ?_⟩
      intro i h1 h2 hnone
      have hpt := hp i h1 h2
      unfold label_from_data at hpt
      split at hpt
      · cases hpt
      · have heq := Except.ok.inj hpt
        rw [← heq]
        simp only [List.get_eq_getElem] at hnone
        simp [hnone]

/-- Witness for C8 at concrete inputs: a zero seq is rejected. -/
theorem C8_witness :
    (from_subscription_record { seq := 0, labels := [] }).isOk = false :=
  (C8_decode_reject_and_neg_default { seq := 0, labels := [] }).1 (Or.inl (by decide))

/-- C9: every record of a successfully decoded `#labels` batch carries the
seq of the body; a batch never mixes sequence numbers. -/
theorem C9_batch_single_seq (body : SubscriptionLabels) (recs : List LabelRecord)
    (hres : from_subscription_record body = Except.ok recs) :
    ∀ r ∈ recs, r.dbkey.seq = body.seq := by
  intro r hmem
  have hres2 := hres
  unfold from_subscription_record at hres2
  split at hres2
  · cases hres2
  · obtain ⟨hlen, hp⟩ := mapM_except_ok _ _ _ hres2
    obtain ⟨i, hget⟩ := List.mem_iff_get.mp hmem
    have hpt := hp i.1 (by omega) i.2
    unfold label_from_data at hpt
    split at hpt
    · cases hpt
    · have heq := Except.ok.inj hpt
      rw [← hget, ← heq]

/-- Witness for C9 at a concrete input. -/
theorem C9_witness : recGood.dbkey.seq = (1 : Int) :=
  C9_batch_single_seq bodyGood [recGood] rfl recGood (by simp)

/-- C10: processing a `#labels` frame whose labels array is empty succeeds
and is a complete no-op: the session state (known labeler dids, per-source
last seq, suspicious and disappeared counters and maps, latest create
timestamp) and the database are returned unchanged
(main.rs lines 309 to 313 return before any mutation). -/
theorem C10_empty_batch_noop (s : LabelStore) (now : DateTimeV) (retreading : Bool) :
    process_labels s [] now retreading = Except.ok s := rfl

/-- Example record whose expiry timestamp lies in the future. -/
def recFutureExp : LabelRecord :=
  { dbkey := { key := keyA, seq := 2 }, create_timestamp := "2024-01-01T00:00:00Z",
    expiry_timestamp := some "2030-01-01T00:00:00Z", neg := false, target_cid := none }

/-- Example record whose expiry timestamp has already passed. -/
def recPastExp : LabelRecord :=
  { dbkey := { key := keyA, seq := 2 }, create_timestamp := "2019-01-01T00:00:00Z",
    expiry_timestamp := some "2020-01-01T00:00:00Z", neg := false, target_cid := none }

/-- Example record with no expiry timestamp. -/
def recNoExp : LabelRecord :=
  { dbkey := { key := keyA, seq := 2 }, create_timestamp := "2024-01-01T00:00:00Z",
    expiry_timestamp := none, neg := false, target_cid := none }

/-- The instant 2024-06-01T00:00:00Z in the datetime model. -/
def t2024 : DateTimeV := 20240601000000

/-- C2: evaluation of `is_expired` at the failing inputs.  The claim (and
the spec) say a record is expired exactly when its expiry parses to a time
at or before `now`; the source body computes `exp > *now`, so a record
expiring in 2030 is reported expired at a 2024 `now`, while a record whose
expiry passed in 2020 is reported unexpired.  The absent-expiry branch does
return `false` as claimed. -/
theorem C2_expiry_test_inverted :
    is_expired recFutureExp t2024 = true
    ∧ is_expired recPastExp t2024 = false
    ∧ (∀ now : DateTimeV, is_expired recNoExp now = false) := by
  refine ⟨by decide, by decide, fun now => rfl⟩

/-- C7: evaluation of the idle-timeout setup at the failing input.  With
`stream_timeout = 0`, `Duration::try_from_secs_f64` succeeds with the zero
duration, so the idle select arm is armed with a timer that fires
immediately and the stream terminates at once — the claim (and the flag
help text in main.rs lines 69 to 71) say every non-positive value waits
forever.  Strictly negative values do disable the idle arm, and positive
values arm it with the given duration. -/
theorem C7_zero_timeout_fires_immediately :
    sleep_duration 0 = some 0
    ∧ idle_arm_fires 0 = true
    ∧ idle_arm_fires (-1) = false
    ∧ idle_arm_fires (1 / 2) = true := by
  refine ⟨by norm_num [sleep_duration, try_from_secs_f64], ?_, ?_, ?_⟩ <;>
    norm_num [idle_arm_fires, conditional_sleep, sleep_duration, try_from_secs_f64]

/-- C1 counterexample: a session processes a frame at seq 5 and then a
frame at seq 4 — both calls return `Ok` and the second frame is fully
processed, its record being durably inserted; no seq-greater-than-cursor
requirement exists anywhere in `process_labels`, so the claimed fatal
monotonicity check is refuted at this concrete input. -/
theorem C1_counterexample :
    ((process_labels ex0 [rec5] 100 false).bind
        (fun s1 => process_labels s1 [rec4] 100 false)).map
        (fun s2 => s2.db.label_records.map (fun row => row.record))
      = Except.ok [rec5, rec4]
    ∧ rec4.dbkey.seq < rec5.dbkey.seq := by
  exact ⟨rfl, by decide⟩

/-- C3 counterexample: processing a batch containing the same assertion
twice produces exactly the same session state — database included — as
processing it once, while the numbers of assertions processed differ; hence
no component of the session state equals the number of assertions processed,
refuting the claimed `total_labels_seen` counter (and the session state
declared in main.rs lines 258 to 275 contains no effective map at all). -/
theorem C3_counterexample :
    process_labels ex0 [recGood, recGood] 100 false
      = process_labels ex0 [recGood] 100 false
    ∧ [recGood, recGood].length ≠ [recGood].length := by
  exact ⟨by decide, by decide⟩

/-- C4 counterexample: a header with `op = -1` and no `t` — exactly the
error-frame shape the claim describes — is rejected as a header decoding
failure (the serde `Header` struct requires `t`), and no body is consulted
for `error`/`message`; while a header with `op = 2`, which the claim calls
a distinct malformed-header case, is routed through the error-frame path,
reporting the error and message fields of the header itself. -/
theorem C4_counterexample :
    header_type [("op", CborVal.int (-1)), ("error", CborVal.text "ConsumerTooSlow"),
                 ("message", CborVal.text "catch up")]
      = Except.error "error decoding event stream header: missing or mistyped header field"
    ∧ header_type [("op", CborVal.int 2), ("t", CborVal.text "#weird")]
      = Except.error "received an error from event stream: (no error type): (no error message)" := by
  exact ⟨rfl, rfl⟩

/-- Example record at seq 3, already present in the database. -/
def rec3 : LabelRecord :=
  { dbkey := { key := keyA, seq := 3 }, create_timestamp := "2024-01-01T00:00:00Z",
    expiry_timestamp := none, neg := false, target_cid := none }

/-- A database already holding `rec3` from import 7, last seen at 100. -/
def db5 : Db :=
  { label_records := [{ record := rec3, impId := 7, lastSeen := 100 }],
    suspicious_records := [] }

/-- A retreading session over `db5` with import id 8. -/
def store5 : LabelStore := { ex0 with db := db5, impId := 8 }

/-- C5 counterexample: re-seeing `rec3` during a retread updates the
existing `label_records` row in place (its import id changes from 7 to 8
and its last seen timestamp to 200, with the row count unchanged), and a
duplicate insert of `rec3` hits the key conflict and adds no row — refuting
both the never-updates claim and the duplicates-become-new-rows claim. -/
theorem C5_counterexample :
    (process_labels store5 [rec3] 200 true).map (fun s => s.db.label_records)
      = Except.ok [{ record := rec3, impId := 8, lastSeen := 200 }]
    ∧ insert_row db5 rec3 9 300 = (false, db5) := by
  exact ⟨rfl, rfl⟩

/-- C6 counterexample: a binary frame with well-formed header and unknown
message type makes the handler return an error (the `bail!` at main.rs
line 235), aborting the read loop — not the claimed non-fatal log-and-
continue. -/
theorem C6_counterexample :
    handle_message ex0
        (WsMessage.binaryMsg [("op", CborVal.int 1), ("t", CborVal.text "#weird")]
          FrameBody.otherBody 0) 100 false
      = Except.error "unknown event stream message type: #weird" := rfl

/-- `strMax` is idempotent. -/
theorem strMax_self (a : String) : strMax a a = a := by
  unfold strMax
  split <;> rfl

/-- Inserting the same record twice leaves the database exactly as after the
first insert: the second attempt hits the key conflict. -/
theorem insert_row_twice (db : Db) (r : LabelRecord) (i now : Int) :
    (insert_row (insert_row db r i now).2 r i now).2 = (insert_row db r i now).2 := by
  unfold insert_row
  by_cases h : db.label_records.any (fun row => row.record.dbkey = r.dbkey)
  · simp [h]
  · simp [h, List.any_append]

/-- C4 amended: with `t` present, the header decodes and `op = 1` yields the
message type while every other `op` is reported as a received error frame
built from the error and message fields of the header map itself; with `t`
absent the header fails to decode for every `op`, so there is no dedicated
error-frame shape and no body is consulted. -/
theorem C4_amended_header_shapes (op : Int) (t : String) (e msg : Option String) :
    (header_type (mkHeader op (some t) e msg)
      = if op = 1 then Except.ok t
        else Except.error ("received an error from event stream: "
          ++ e.getD "(no error type)" ++ ": " ++ msg.getD "(no error message)"))
    ∧ (∀ e2 m2 : Option String, (header_type (mkHeader op none e2 m2)).isOk = false) := by
  constructor
  · by_cases hop : op = 1 <;>
      cases e <;> cases msg <;>
        simp [header_type, mkHeader, decode_header, getIntField, getTextField,
          getOptTextField, alookup, hop]
  · intro e2 m2
    cases e2 <;> cases m2 <;>
      simp [header_type, mkHeader, decode_header, getIntField, getTextField,
        getOptTextField, alookup, Except.isOk, Except.toBool]

/-- C6 amended: text frames are non-fatal (the session continues with the
same state), trailing bytes after a successfully handled message are
non-fatal (an `#info` frame with any number of trailing bytes is handled
successfully), but an unknown message type makes handling fail with an
unknown-message-type error, aborting the read loop. -/
theorem C6_amended_nonfatal_and_unknown (s : LabelStore) (now : DateTimeV) (rt : Bool) :
    (∀ txt : String, handle_message s (.textMsg txt) now rt = Except.ok s)
    ∧ (∀ (n : String) (m : Option String) (tr : Nat),
        handle_message s
          (.binaryMsg (mkHeader 1 (some "#info") none none) (.infoBody n m) tr) now rt
          = Except.ok s)
    ∧ (∀ (hdr : HeaderMap) (body : FrameBody) (tr : Nat) (ty : String),
        header_type hdr = Except.ok ty → ty ≠ "#labels" → ty ≠ "#info" →
        handle_message s (.binaryMsg hdr body tr) now rt
          = Except.error ("unknown event stream message type: " ++ ty)) := by
  refine ⟨fun txt => rfl, fun n m tr => rfl, ?_⟩
  intro hdr body tr ty hty h1 h2
  simp [handle_message, hty, h1, h2]

/-- Witness for C6 amended at concrete inputs: a text frame and a frame
with trailing bytes are handled successfully; an unknown type fails. -/
theorem C6_amended_witness :
    handle_message ex0 (.textMsg "hello") 0 false = Except.ok ex0
    ∧ handle_message ex0
        (.binaryMsg (mkHeader 1 (some "#strange") none none) FrameBody.otherBody 3) 0 false
        = Except.error ("unknown event stream message type: " ++ "#strange") := by
  refine ⟨(C6_amended_nonfatal_and_unknown ex0 0 false).1 "hello", ?_⟩
  exact (C6_amended_nonfatal_and_unknown ex0 0 false).2.2
    (mkHeader 1 (some "#strange") none none) FrameBody.otherBody 3 "#strange"
    rfl (by decide) (by decide)

/-- With retreading off, the per-src loop only learns labeler dids: the
last-seq map and the indexed old records are untouched. -/
theorem src_fold_no_retread (db : Db) (bs : Int) :
    ∀ (srcs : List String) (acc : SrcAcc),
      (srcs.foldl (src_step db bs false) acc).lastSeq = acc.lastSeq
      ∧ (srcs.foldl (src_step db bs false) acc).indexedOld = acc.indexedOld := by
  intro srcs
  induction srcs with
  | nil => intro acc; exact ⟨rfl, rfl⟩
  | cons a as ih =>
    intro acc
    have h := ih (src_step db bs false acc a)
    refine ⟨?_, ?_⟩
    · rw [List.foldl_cons, h.1]; rfl
    · rw [List.foldl_cons, h.2]; rfl

/-- With no indexed old records, the per-label loop only accumulates into
the suspicious-new and insert lists: no updates and no suspicious old
records are produced. -/
theorem label_fold_no_old (dids : List (String × Int)) :
    ∀ (labels : List LabelRecord) (acc : LabelAcc), acc.indexedOld = [] →
      (labels.foldl (label_step dids) acc).indexedOld = []
      ∧ (labels.foldl (label_step dids) acc).susOld = acc.susOld
      ∧ (labels.foldl (label_step dids) acc).upds = acc.upds := by
  intro labels
  induction labels with
  | nil => intro acc h; exact ⟨h, rfl, rfl⟩
  | cons l ls ih =>
    intro acc h
    have hstep : (label_step dids acc l).indexedOld = []
        ∧ (label_step dids acc l).susOld = acc.susOld
        ∧ (label_step dids acc l).upds = acc.upds := by
      unfold label_step
      rw [h]
      split
      · exact ⟨rfl, rfl, rfl⟩
      · simp [aremoveTake]
    obtain ⟨h1, h2, h3⟩ := hstep
    obtain ⟨g1, g2, g3⟩ := ih (label_step dids acc l) h1
    rw [List.foldl_cons]
    exact ⟨g1, by rw [g2, h2], by rw [g3, h3]⟩

/-- The write transaction with no suspicious old records and no updates
always succeeds. -/
theorem tx_phase_no_old_no_upd (db : Db) (i : Int) (now : DateTimeV)
    (susNew : List (LabelRecord × String)) (inss : List LabelRecord) :
    tx_phase db i now [] susNew [] inss
      = Except.ok (inss.foldl (fun d l => (insert_row d l i now).2)
          (susNew.foldl (fun d p => suspicious_insert d p.1 p.2 i now) db)) := rfl

/-- C1 amended: `process_labels` enforces no ordering requirement on `seq`
relative to a cursor or to previously processed frames — in non-retread
mode every decoded batch is processed successfully, whatever its seq (the
source leaves seq-ordering validation as a TODO, main.rs lines 30 to 31). -/
theorem C1_amended_no_seq_requirement (s : LabelStore) (labels : List LabelRecord)
    (now : DateTimeV) :
    (process_labels s labels now false).isOk = true := by
  cases labels with
  | nil => rfl
  | cons first rest =>
    simp only [process_labels, List.head?]
    obtain ⟨hls, hio⟩ := src_fold_no_retread s.db first.dbkey.seq
      (dedupFirst ((first :: rest).map (fun l => l.dbkey.key.src)))
      { dids := s.labeler_dids, lastSeq := s.last_seq, indexedOld := [] }
    obtain ⟨g1, g2, g3⟩ := label_fold_no_old _ (first :: rest)
      { indexedOld := ((dedupFirst ((first :: rest).map (fun l => l.dbkey.key.src))).foldl
          (src_step s.db first.dbkey.seq false)
          { dids := s.labeler_dids, lastSeq := s.last_seq, indexedOld := [] }).indexedOld,
        susOld := [], susNew := [], upds := [], inss := [],
        susNewCount := s.suspicious_new_records } hio
    rw [g1] at *
    simp only [g1, g2, g3, List.map_nil, List.foldl_nil]
    rw [tx_phase_no_old_no_upd]
    rfl

/-- C3 amended: the session keeps no per-assertion counter and no effective
map — for a known labeler did with prior seq below the batch seq, in
non-retread mode, processing a batch with a duplicated assertion leaves the
session in exactly the same state (database included) as processing the
assertion once: the duplicate collapses on the key conflict. -/
theorem C3_amended_duplicates_collapse (s : LabelStore) (r : LabelRecord)
    (now : DateTimeV) (p : Int)
    (h1 : alookup s.labeler_dids r.dbkey.key.src = some p) (h2 : p < r.dbkey.seq) :
    process_labels s [r, r] now false = process_labels s [r] now false := by
  simp only [process_labels, List.head?, List.map_cons, List.map_nil]
  simp [latest_cts, dedupFirst, src_step, label_step, disappeared_step,
    alookup, h1, h2, strMax_self, insert_row_twice, tx_phase_no_old_no_upd]

/-- A session that already knows the example labeler did with prior seq 0. -/
def exStore3 : LabelStore := { ex0 with labeler_dids := [("did:plc:labeler", 0)] }

/-- Witness for C3 amended at a concrete input. -/
theorem C3_amended_witness :
    process_labels exStore3 [recGood, recGood] 50 false
      = process_labels exStore3 [recGood] 50 false :=
  C3_amended_duplicates_collapse exStore3 recGood 50 0 rfl (by decide)

/-- A fresh session over the given database with the given import id
(the state built by `LabelStore::new` for a later run). -/
def mkStore (db : Db) (impId : Int) : LabelStore :=
  { db := db, impId := impId, labeler_dids := [], suspicious_new_records := 0,
    disappeared_negative_records := 0, last_seq := [], disappeared_old_records := [],
    latest_create_timestamp := none }

/-- C5 amended: the write path is not purely append-only — when a retread
re-sees a record already stored as a row, `process_labels` updates that row
in place, replacing its import id and last-seen timestamp while the row
count stays the same; a duplicate insert is skipped on the key conflict
rather than adding a row (see `insert_row_twice`). -/
theorem C5_amended_retread_updates_row (r : LabelRecord) (i0 t0 i1 : Int)
    (now : DateTimeV) (h : 0 ≤ r.dbkey.seq) :
    process_labels
        (mkStore { label_records := [{ record := r, impId := i0, lastSeen := t0 }],
                   suspicious_records := [] } i1)
        [r] now true
      = Except.ok
          { db := { label_records := [{ record := r, impId := i1, lastSeen := now }],
                    suspicious_records := [] },
            impId := i1,
            labeler_dids := [(r.dbkey.key.src, r.dbkey.seq)],
            suspicious_new_records := 0,
            disappeared_negative_records := 0,
            last_seq := [(r.dbkey.key.src, r.dbkey.seq)],
            disappeared_old_records := [],
            latest_create_timestamp := some r.create_timestamp } := by
  simp only [process_labels, List.head?, List.map_cons, List.map_nil]
  simp [mkStore, latest_cts, dedupFirst, src_step, seq_for_src, load_known_range,
    aextend, aupsert, alookup, label_step, aremoveTake, disappeared_step, tx_phase,
    update_row, insert_row, h, List.max?]

/-- Witness for C5 amended at a concrete input. -/
theorem C5_amended_witness :
    process_labels
        (mkStore { label_records := [{ record := rec3, impId := 7, lastSeen := 100 }],
                   suspicious_records := [] } 8)
        [rec3] 200 true
      = Except.ok
          { db := { label_records := [{ record := rec3, impId := 8, lastSeen := 200 }],
                    suspicious_records := [] },
            impId := 8,
            labeler_dids := [(rec3.dbkey.key.src, rec3.dbkey.seq)],
            suspicious_new_records := 0,
            disappeared_negative_records := 0,
            last_seq := [(rec3.dbkey.key.src, rec3.dbkey.seq)],
            disappeared_old_records := [],
            latest_create_timestamp := some rec3.create_timestamp } :=
  C5_amended_retread_updates_row rec3 7 100 8 200 (by decide)
